import Mathlib

/-!
Shallow embedding of the stockmon repository alert-evaluation and
notification-deduplication core.

Sources embedded:
- src/app/main.py, check_alerts: threshold evaluation per ticker, per-ticker
  error collection, service_degraded computation.
- src/client/notified.py: get_notification_key, load_notified_data,
  save_notified_data (modelled as an injected capability), clean_old_entries,
  filter_already_notified, and the NotificationTracker methods.

Modelling conventions: Python floats (prices, Unix timestamps) become ℚ;
Python dicts become association lists with unique keys and insertion order
(lookup is first-match, assignment updates in place or appends); wall-clock
reads (time.time()) become an explicit current_time argument; file I/O
becomes injected capabilities (a save function that may fail, a read outcome,
a JSON parse function).
-/

/-- Embedding of the alert dict consumed by the client side
(src/client/notified.py): a dict with at least the keys "ticker" and "type". -/
structure ClientAlert where
  ticker : String
  type : String
deriving DecidableEq, Repr

/-- Notified-state mapping: dict from notification key to Unix timestamp
(src/client/notified.py stores Dict[str, float]). -/
abbrev NotifiedData := List (String × ℚ)

/-- Embedding of get_notification_key (src/client/notified.py lines 14-29):
the Python f-string joining ticker and alert_type with a colon, written with explicit appends. -/
def get_notification_key (ticker : String) (alert_type : String) : String :=
  ticker ++ ":" ++ alert_type

/-- Python dict assignment d[key] = v on an association list: the first entry
with this key is overwritten in place; if the key is absent the pair is
appended (CPython dicts preserve insertion order). -/
def dictSet : NotifiedData → String → ℚ → NotifiedData
  | [], key, v => [(key, v)]
  | (k, w) :: rest, key, v =>
    if k = key then (key, v) :: rest else (k, w) :: dictSet rest key v

/-- Embedding of clean_old_entries (src/client/notified.py lines 97-129):
the dict comprehension keeping entries with (current_time - timestamp) <
silence_seconds, where silence_seconds = silence_hours * 3600. The
time.time() call becomes the explicit current_time argument. -/
def clean_old_entries (data : NotifiedData) (silence_hours : Int)
    (current_time : ℚ) : NotifiedData :=
  let silence_seconds : ℚ := (silence_hours : ℚ) * 3600
  data.filter (fun kv => decide (current_time - kv.2 < silence_seconds))

/-- Loop body of filter_already_notified (src/client/notified.py lines
160-177): walk the alerts in order; when the key is in notified_data and the
elapsed time is strictly below silence_seconds the alert is skipped, otherwise
it is appended to the output. -/
def filterAlreadyNotifiedGo (notified_data : NotifiedData)
    (silence_seconds : ℚ) (current_time : ℚ) :
    List ClientAlert → List ClientAlert
  | [] => []
  | alert :: rest =>
    let key := get_notification_key alert.ticker alert.type
    match List.lookup key notified_data with
    | some last_notified =>
      if current_time - last_notified < silence_seconds then
        filterAlreadyNotifiedGo notified_data silence_seconds current_time rest
      else
        alert :: filterAlreadyNotifiedGo notified_data silence_seconds
          current_time rest
    | none =>
      alert :: filterAlreadyNotifiedGo notified_data silence_seconds
        current_time rest

/-- Embedding of filter_already_notified (src/client/notified.py lines
132-179): converts silence_hours to seconds once, then runs the loop. The
time.time() call becomes the explicit current_time argument. -/
def filter_already_notified (alerts : List ClientAlert)
    (notified_data : NotifiedData) (silence_hours : Int)
    (current_time : ℚ) : List ClientAlert :=
  filterAlreadyNotifiedGo notified_data ((silence_hours : ℚ) * 3600)
    current_time alerts

/-- Keep-predicate of the filtering loop, as a boolean: an alert survives
unless its key is present and the elapsed time is strictly below the window. -/
def keepAlert (notified_data : NotifiedData) (silence_seconds : ℚ)
    (current_time : ℚ) (alert : ClientAlert) : Bool :=
  match List.lookup (get_notification_key alert.ticker alert.type)
      notified_data with
  | some last_notified =>
    !(decide (current_time - last_notified < silence_seconds))
  | none => true

/-- Outcome of one write attempt by the backing store (the body of
save_notified_data, src/client/notified.py lines 79-94: a plain open/json.dump
with no try/except, so any failure surfaces as an exception). -/
inductive SaveOutcome
  | ok
  | failed (msg : String)
deriving DecidableEq, Repr

/-- Embedding of the NotificationTracker state (src/client/notified.py lines
182-216): the configured silence window and the in-memory dict. -/
structure NotificationTracker where
  silence_hours : Int
  data : NotifiedData
deriving DecidableEq, Repr

/-- Embedding of NotificationTracker.mark_notified (src/client/notified.py
lines 218-231): set data[key] = now, then call save_notified_data on the full
state. There is no try/except, so a failing save propagates as an error. -/
def NotificationTracker.mark_notified (save : NotifiedData → SaveOutcome)
    (tr : NotificationTracker) (ticker : String) (alert_type : String)
    (now : ℚ) : Except String NotificationTracker :=
  let key := get_notification_key ticker alert_type
  let d := dictSet tr.data key now
  match save d with
  | .ok => .ok { tr with data := d }
  | .failed msg => .error msg

/-- Embedding of NotificationTracker.filter_alerts (src/client/notified.py
lines 233-250): delegates to filter_already_notified on the in-memory state;
it returns only the filtered list and touches nothing. -/
def NotificationTracker.filter_alerts (tr : NotificationTracker)
    (alerts : List ClientAlert) (current_time : ℚ) : List ClientAlert :=
  filter_already_notified alerts tr.data tr.silence_hours current_time

/-- Embedding of NotificationTracker.cleanup (src/client/notified.py lines
252-263): replace the state by clean_old_entries of it, then save. There is
no try/except, so a failing save propagates as an error. -/
def NotificationTracker.cleanup (save : NotifiedData → SaveOutcome)
    (tr : NotificationTracker) (now : ℚ) : Except String NotificationTracker :=
  let d := clean_old_entries tr.data tr.silence_hours now
  match save d with
  | .ok => .ok { tr with data := d }
  | .failed msg => .error msg

/-- Outcome of reading the notified.json file, as seen by
load_notified_data (src/client/notified.py lines 47-60): the file may be
missing, the read may fail with an OS error, or it yields the raw content. -/
inductive ReadOutcome
  | missing
  | readFailed (msg : String)
  | readOk (content : String)

/-- Result of load_notified_data together with whether a WARNING line was
printed (the two except branches print a warning). -/
structure LoadResult where
  data : NotifiedData
  warned : Bool
deriving DecidableEq, Repr

/-- Embedding of load_notified_data (src/client/notified.py lines 32-76):
missing file gives the empty dict; content is stripped and an empty string
gives the empty dict; json.loads is the injected parseJson capability whose
failure (JSONDecodeError) gives the empty dict with a warning; any other read
error also gives the empty dict with a warning. No branch propagates an
error: the function is total. -/
def load_notified_data (parseJson : String → Option NotifiedData) :
    ReadOutcome → LoadResult
  | .missing => ⟨[], false⟩
  | .readFailed _ => ⟨[], true⟩
  | .readOk content =>
    let stripped := content.trim
    if stripped = "" then ⟨[], false⟩
    else
      match parseJson stripped with
      | some d => ⟨d, false⟩
      | none => ⟨[], true⟩

/-- Embedding of the ThresholdDict model (src/app/models.py): optional buy
and sell thresholds for one ticker. -/
structure ThresholdDict where
  buy : Option ℚ
  sell : Option ℚ
deriving DecidableEq, Repr

/-- Failure kinds raised by get_24h_range (src/app/services/stock.py) and
caught one by one in check_alerts; the last constructor stands for the
catch-all except Exception branch. -/
inductive StockFailure
  | invalidTicker (msg : String)
  | marketClosed (msg : String)
  | dataTimeout (msg : String)
  | unexpected (msg : String)
deriving DecidableEq, Repr

/-- Embedding of the PriceRange triple returned by get_24h_range:
(min_price, max_price, current_price) over the trailing 24h window. -/
structure PriceRange where
  min_price : ℚ
  max_price : ℚ
  current_price : ℚ
deriving DecidableEq, Repr

/-- Embedding of the Alert model (src/app/models.py). -/
structure Alert where
  ticker : String
  type : String
  threshold : ℚ
  reached : ℚ
  current : ℚ
deriving DecidableEq, Repr

/-- Embedding of the ErrorDetail model (src/app/models.py). -/
structure ErrorDetail where
  ticker : String
  error : String
deriving DecidableEq, Repr

/-- Error message built by the four except branches of check_alerts
(src/app/main.py lines 230-260). -/
def errorText : StockFailure → String
  | .invalidTicker m => "Invalid ticker: " ++ m
  | .marketClosed m => "Market closed: " ++ m
  | .dataTimeout m => "Timeout: " ++ m
  | .unexpected m => "Unexpected error: " ++ m

/-- Success branch of the check_alerts loop body (src/app/main.py lines
208-228): buy alert when thresholds.buy is set and min_price <= buy, appended
first; sell alert when thresholds.sell is set and max_price >= sell, appended
second. -/
def checkThresholds (ticker : String) (thresholds : ThresholdDict)
    (r : PriceRange) : List Alert :=
  (match thresholds.buy with
   | some b =>
     if r.min_price ≤ b then
       [{ ticker := ticker, type := "buy", threshold := b,
          reached := r.min_price, current := r.current_price }]
     else []
   | none => []) ++
  (match thresholds.sell with
   | some s =>
     if r.max_price ≥ s then
       [{ ticker := ticker, type := "sell", threshold := s,
          reached := r.max_price, current := r.current_price }]
     else []
   | none => [])

/-- Embedding of the response fields of check_alerts that the core computes
(src/app/main.py lines 269-275); market_open and checked_at are produced by
external wall-clock collaborators and are not part of the claims. -/
structure AlertResponse where
  alerts : List Alert
  errors : List ErrorDetail
  service_degraded : Bool
deriving DecidableEq, Repr

/-- One iteration of the for loop of check_alerts (src/app/main.py lines
200-260) over the accumulator (alerts, errors, successful_fetches): a
successful lookup appends the threshold alerts and bumps the counter; a
failing lookup appends one ErrorDetail with the message of the matching branch. -/
def checkStep (lookup : String → Except StockFailure PriceRange)
    (acc : List Alert × List ErrorDetail × Nat)
    (p : String × ThresholdDict) : List Alert × List ErrorDetail × Nat :=
  match lookup p.1 with
  | .ok r => (acc.1 ++ checkThresholds p.1 p.2 r, acc.2.1, acc.2.2 + 1)
  | .error e =>
    (acc.1, acc.2.1 ++ [{ ticker := p.1, error := errorText e }], acc.2.2)

/-- Embedding of check_alerts (src/app/main.py lines 125-277): the request
dict becomes an ordered list of (ticker, thresholds) pairs, the get_24h_range
call becomes the injected lookup capability, and service_degraded is
total_tickers > 0 and successful_fetches == 0 and len(errors) == total_tickers
(lines 262-266). -/
def check_alerts (lookup : String → Except StockFailure PriceRange)
    (requests : List (String × ThresholdDict)) : AlertResponse :=
  let st := requests.foldl (checkStep lookup) ([], [], 0)
  { alerts := st.1
    errors := st.2.1
    service_degraded :=
      decide (0 < requests.length) && decide (st.2.2 = 0) &&
        decide (st.2.1.length = requests.length) }

/-- Alerts attributable to one (ticker, thresholds) pair: the threshold
alerts on lookup success, nothing on failure. -/
def tickerAlerts (lookup : String → Except StockFailure PriceRange)
    (p : String × ThresholdDict) : List Alert :=
  match lookup p.1 with
  | .ok r => checkThresholds p.1 p.2 r
  | .error _ => []

/-- Error entry attributable to one (ticker, thresholds) pair: one
ErrorDetail on lookup failure, nothing on success. -/
def tickerError (lookup : String → Except StockFailure PriceRange)
    (p : String × ThresholdDict) : Option ErrorDetail :=
  match lookup p.1 with
  | .ok _ => none
  | .error e => some { ticker := p.1, error := errorText e }

/-- Whether the lookup succeeds for this pair. -/
def lookupOk (lookup : String → Except StockFailure PriceRange)
    (p : String × ThresholdDict) : Bool :=
  match lookup p.1 with
  | .ok _ => true
  | .error _ => false

/-- Alerts of the response attributed to one ticker and one alert kind. -/
def alertsFor (resp : AlertResponse) (ticker ty : String) : List Alert :=
  resp.alerts.filter (fun a => a.ticker == ticker && a.type == ty)

/-! Helper lemmas shared by several claim theorems. -/

theorem filterGo_eq_filter (notified_data : NotifiedData)
    (silence_seconds current_time : ℚ) (alerts : List ClientAlert) :
    filterAlreadyNotifiedGo notified_data silence_seconds current_time alerts
      = alerts.filter (keepAlert notified_data silence_seconds current_time) := by
  induction alerts with
  | nil => rfl
  | cons a rest ih =>
    simp only [filterAlreadyNotifiedGo]
    cases h : List.lookup (get_notification_key a.ticker a.type)
        notified_data with
    | none => simp [List.filter_cons, keepAlert, h, ih]
    | some last_notified =>
      by_cases hlt : current_time - last_notified < silence_seconds
      · simp [List.filter_cons, keepAlert, h, hlt, ih]
      · simp [List.filter_cons, keepAlert, h, hlt, ih]

theorem filter_already_notified_eq_filter (alerts : List ClientAlert)
    (notified_data : NotifiedData) (silence_hours : Int) (current_time : ℚ) :
    filter_already_notified alerts notified_data silence_hours current_time
      = alerts.filter
          (keepAlert notified_data ((silence_hours : ℚ) * 3600) current_time) :=
  filterGo_eq_filter ..

theorem keepAlert_false_iff (notified_data : NotifiedData)
    (silence_seconds current_time : ℚ) (alert : ClientAlert) :
    keepAlert notified_data silence_seconds current_time alert = false ↔
      ∃ last_notified,
        List.lookup (get_notification_key alert.ticker alert.type)
          notified_data = some last_notified ∧
        current_time - last_notified < silence_seconds := by
  unfold keepAlert
  cases h : List.lookup (get_notification_key alert.ticker alert.type)
      notified_data with
  | none => simp
  | some last_notified => simp [h]

theorem lookup_dictSet_self (data : NotifiedData) (key : String) (v : ℚ) :
    List.lookup key (dictSet data key v) = some v := by
  induction data with
  | nil => simp [dictSet, List.lookup]
  | cons kv rest ih =>
    obtain ⟨k, w⟩ := kv
    by_cases hk : k = key
    · simp [dictSet, hk, List.lookup]
    · have hb : (key == k) = false := by
        simp [Ne.symm hk]
      simp [dictSet, hk, List.lookup, hb, ih]

theorem lookup_dictSet_ne (data : NotifiedData) (key k : String) (v : ℚ)
    (hne : k ≠ key) :
    List.lookup k (dictSet data key v) = List.lookup k data := by
  induction data with
  | nil =>
    have hb : (k == key) = false := by simp [hne]
    simp [dictSet, List.lookup, hb]
  | cons kv rest ih =>
    obtain ⟨k0, w⟩ := kv
    by_cases hk : k0 = key
    · have hbk : (k == key) = false := by simp [hne]
      have hb0 : (k == k0) = false := by
        simp [show k ≠ k0 from fun h => hne (h.trans hk)]
      simp [dictSet, hk, List.lookup, hbk, hb0]
    · simp only [dictSet, if_neg hk]
      by_cases hk0 : k = k0
      · simp [List.lookup, hk0]
      · have hb : (k == k0) = false := by simp [hk0]
        simp [List.lookup, hb, ih]

theorem dictSet_keys (data : NotifiedData) (key : String) (v : ℚ) :
    (dictSet data key v).map Prod.fst =
      if (List.lookup key data).isSome then data.map Prod.fst
      else data.map Prod.fst ++ [key] := by
  induction data with
  | nil => simp [dictSet, List.lookup]
  | cons kv rest ih =>
    obtain ⟨k0, w⟩ := kv
    by_cases hk : k0 = key
    · subst hk
      simp [dictSet, List.lookup]
    · simp only [dictSet, if_neg hk, List.map_cons, List.lookup,
        show (key == k0) = false by simp [Ne.symm hk]]
      rw [ih]
      by_cases hs : (List.lookup key rest).isSome
      · simp [hs]
      · simp [hs]

theorem check_foldl_eq (lookup : String → Except StockFailure PriceRange)
    (reqs : List (String × ThresholdDict)) :
    ∀ (as : List Alert) (es : List ErrorDetail) (n : Nat),
      reqs.foldl (checkStep lookup) (as, es, n) =
        (as ++ reqs.flatMap (tickerAlerts lookup),
         es ++ reqs.filterMap (tickerError lookup),
         n + reqs.countP (lookupOk lookup)) := by
  induction reqs with
  | nil => intro as es n; simp
  | cons p rest ih =>
    intro as es n
    cases h : lookup p.1 with
    | error e =>
      simp only [List.foldl_cons, checkStep, h, ih, List.flatMap_cons,
        List.filterMap_cons, List.countP_cons, tickerAlerts, tickerError,
        lookupOk, Prod.mk.injEq]
      refine ⟨by simp, by simp, by simp⟩
    | ok r =>
      simp only [List.foldl_cons, checkStep, h, ih, List.flatMap_cons,
        List.filterMap_cons, List.countP_cons, tickerAlerts, tickerError,
        lookupOk, Prod.mk.injEq]
      refine ⟨by simp [List.append_assoc], by simp, by simp; omega⟩

theorem check_alerts_alerts_eq (lookup : String → Except StockFailure PriceRange)
    (reqs : List (String × ThresholdDict)) :
    (check_alerts lookup reqs).alerts = reqs.flatMap (tickerAlerts lookup) := by
  have h := check_foldl_eq lookup reqs [] [] 0
  simp only [check_alerts, h]
  simp

theorem check_alerts_errors_eq (lookup : String → Except StockFailure PriceRange)
    (reqs : List (String × ThresholdDict)) :
    (check_alerts lookup reqs).errors = reqs.filterMap (tickerError lookup) := by
  have h := check_foldl_eq lookup reqs [] [] 0
  simp only [check_alerts, h]
  simp

theorem check_alerts_degraded_eq (lookup : String → Except StockFailure PriceRange)
    (reqs : List (String × ThresholdDict)) :
    (check_alerts lookup reqs).service_degraded =
      (decide (0 < reqs.length) && decide (reqs.countP (lookupOk lookup) = 0) &&
        decide ((reqs.filterMap (tickerError lookup)).length = reqs.length)) := by
  have h := check_foldl_eq lookup reqs [] [] 0
  simp only [check_alerts, h]
  simp only [List.nil_append]
  rw [Nat.zero_add]

/-- C2: filterAlerts drops an alert exactly when the key ticker:kind is in
the state with (now - stored_timestamp) < silenceSeconds (strict less-than,
so an alert whose age equals the window is kept), preserves the relative
order of survivors (the result is a sublist, hence an order-preserving
subsequence, of the input), and the tracker method is a pure read of the
state: it returns only the filtered list, so the state is left unmodified
and nothing is persisted. -/
theorem filter_already_notified_exact_spec (alerts : List ClientAlert)
    (notified_data : NotifiedData) (silence_hours : Int) (current_time : ℚ) :
    (filter_already_notified alerts notified_data silence_hours
        current_time).Sublist alerts ∧
    filter_already_notified alerts notified_data silence_hours current_time
      = alerts.filter
          (keepAlert notified_data ((silence_hours : ℚ) * 3600) current_time) ∧
    (∀ alert : ClientAlert,
      keepAlert notified_data ((silence_hours : ℚ) * 3600) current_time alert
          = false ↔
        ∃ last_notified,
          List.lookup (get_notification_key alert.ticker alert.type)
            notified_data = some last_notified ∧
          current_time - last_notified < (silence_hours : ℚ) * 3600) ∧
    (∀ tr : NotificationTracker,
      tr.filter_alerts alerts current_time
        = filter_already_notified alerts tr.data tr.silence_hours
            current_time) := by
  refine ⟨?_, filter_already_notified_eq_filter .., fun alert =>
    keepAlert_false_iff .., fun tr => rfl⟩
  rw [filter_already_notified_eq_filter]
  exact List.filter_sublist _

/-- C7: with the state and the clock fixed and no intervening markNotified,
filterAlerts is idempotent: applying it to its own output returns that
output unchanged, so both calls yield the same filtered list. -/
theorem filter_alerts_idempotent (tr : NotificationTracker)
    (alerts : List ClientAlert) (current_time : ℚ) :
    tr.filter_alerts (tr.filter_alerts alerts current_time) current_time
      = tr.filter_alerts alerts current_time := by
  simp only [NotificationTracker.filter_alerts,
    filter_already_notified_eq_filter]
  rw [List.filter_filter]
  simp

/-- C5: clean_old_entries keeps exactly the entries with
(now - timestamp) < silence window, i.e. removes exactly those with age >=
the window, each survivor keeping its key and timestamp (the result is a
sublist of the state); cleanup then persists the cleaned state and succeeds
whenever the store write succeeds; on the empty state it cleans to the empty
state and persists it without error. -/
theorem clean_old_entries_exact_spec (data : NotifiedData)
    (silence_hours : Int) (current_time : ℚ) :
    (clean_old_entries data silence_hours current_time).Sublist data ∧
    (∀ kv : String × ℚ,
      kv ∈ clean_old_entries data silence_hours current_time ↔
        kv ∈ data ∧ current_time - kv.2 < (silence_hours : ℚ) * 3600) ∧
    (∀ kv ∈ data,
      kv ∉ clean_old_entries data silence_hours current_time ↔
        (silence_hours : ℚ) * 3600 ≤ current_time - kv.2) ∧
    clean_old_entries [] silence_hours current_time = [] ∧
    (∀ save : NotifiedData → SaveOutcome,
      save (clean_old_entries data silence_hours current_time) = .ok →
        NotificationTracker.cleanup save ⟨silence_hours, data⟩ current_time
          = .ok ⟨silence_hours,
              clean_old_entries data silence_hours current_time⟩) := by
  refine ⟨List.filter_sublist _, ?_, ?_, rfl, ?_⟩
  · intro kv
    simp [clean_old_entries, List.mem_filter]
  · intro kv hkv
    simp [clean_old_entries, List.mem_filter, hkv, not_lt]
  · intro save hsave
    simp [NotificationTracker.cleanup, hsave]

/-- C9: a write error from the backing store is not caught inside the
tracker: when the save of the updated state fails, mark_notified surfaces
exactly that error, and when the save of the cleaned state fails, cleanup
surfaces exactly that error. -/
theorem persistence_failure_propagates (save : NotifiedData → SaveOutcome)
    (tr : NotificationTracker) (ticker alert_type : String) (now : ℚ)
    (msg : String)
    (hmark : save (dictSet tr.data (get_notification_key ticker alert_type)
      now) = .failed msg)
    (hclean : save (clean_old_entries tr.data tr.silence_hours now)
      = .failed msg) :
    tr.mark_notified save ticker alert_type now = .error msg ∧
    tr.cleanup save now = .error msg := by
  constructor
  · simp [NotificationTracker.mark_notified, hmark]
  · simp [NotificationTracker.cleanup, hclean]

/-- Witness for C9: a store whose write always fails with "disk full" makes
mark_notified and cleanup fail with exactly that message. -/
theorem persistence_failure_propagates_witness :
    NotificationTracker.mark_notified (fun _ => .failed "disk full")
        ⟨48, []⟩ "AAPL" "buy" 0 = .error "disk full" ∧
    NotificationTracker.cleanup (fun _ => .failed "disk full")
        ⟨48, []⟩ 0 = .error "disk full" :=
  persistence_failure_propagates (fun _ => .failed "disk full")
    ⟨48, []⟩ "AAPL" "buy" 0 "disk full" rfl rfl

/-- C10: mark_notified with a succeeding store updates only the entry for
the key ticker:alert_type, setting it to the current time: every other key
still looks up to its previous timestamp, the silence window is unchanged,
and the key sequence is unchanged when the key was already present and is
extended by exactly that key otherwise. -/
theorem mark_notified_frame (save : NotifiedData → SaveOutcome)
    (tr : NotificationTracker) (ticker alert_type : String) (now : ℚ)
    (hsave : save (dictSet tr.data (get_notification_key ticker alert_type)
      now) = .ok) :
    ∃ tr' : NotificationTracker,
      tr.mark_notified save ticker alert_type now = .ok tr' ∧
      tr'.silence_hours = tr.silence_hours ∧
      List.lookup (get_notification_key ticker alert_type) tr'.data
        = some now ∧
      (∀ k : String, k ≠ get_notification_key ticker alert_type →
        List.lookup k tr'.data = List.lookup k tr.data) ∧
      tr'.data.map Prod.fst =
        (if (List.lookup (get_notification_key ticker alert_type)
              tr.data).isSome
         then tr.data.map Prod.fst
         else tr.data.map Prod.fst
           ++ [get_notification_key ticker alert_type]) := by
  refine ⟨⟨tr.silence_hours,
    dictSet tr.data (get_notification_key ticker alert_type) now⟩, ?_, rfl,
    lookup_dictSet_self .., fun k hk => lookup_dictSet_ne _ _ _ _ hk,
    dictSet_keys ..⟩
  simp [NotificationTracker.mark_notified, hsave]

/-- Witness for C10: marking AAPL:buy at time 100 over a state holding only
MSFT:sell leaves the MSFT:sell entry and its timestamp in place and appends
the new key. -/
theorem mark_notified_frame_witness :
    ∃ tr' : NotificationTracker,
      NotificationTracker.mark_notified (fun _ => .ok)
          ⟨48, [("MSFT:sell", 5)]⟩ "AAPL" "buy" 100 = .ok tr' ∧
      tr'.silence_hours = 48 ∧
      List.lookup (get_notification_key "AAPL" "buy") tr'.data = some 100 ∧
      (∀ k : String, k ≠ get_notification_key "AAPL" "buy" →
        List.lookup k tr'.data
          = List.lookup k [("MSFT:sell", (5 : ℚ))]) ∧
      tr'.data.map Prod.fst =
        (if (List.lookup (get_notification_key "AAPL" "buy")
              [("MSFT:sell", (5 : ℚ))]).isSome
         then ["MSFT:sell"] else ["MSFT:sell"] ++ ["AAPL:buy"]) :=
  mark_notified_frame (fun _ => .ok) ⟨48, [("MSFT:sell", 5)]⟩ "AAPL" "buy"
    100 rfl

/-- C4: with a positive silence window, marking (ticker, kind) as notified
and filtering the singleton alert list at the same clock instant yields the
empty list; filtering again at any instant whose distance from the mark is
at least the silence window yields the alert back. -/
theorem mark_then_filter_round_trip (tr : NotificationTracker)
    (ticker alert_type : String) (now now2 : ℚ)
    (hpos : 0 < tr.silence_hours)
    (hpast : (tr.silence_hours : ℚ) * 3600 ≤ now2 - now) :
    ∃ tr' : NotificationTracker,
      tr.mark_notified (fun _ => .ok) ticker alert_type now = .ok tr' ∧
      tr'.filter_alerts [⟨ticker, alert_type⟩] now = [] ∧
      tr'.filter_alerts [⟨ticker, alert_type⟩] now2
        = [⟨ticker, alert_type⟩] := by
  have hss : (0 : ℚ) < (tr.silence_hours : ℚ) * 3600 := by
    have h1 : (0 : ℚ) < (tr.silence_hours : ℚ) := by exact_mod_cast hpos
    nlinarith
  refine ⟨⟨tr.silence_hours,
    dictSet tr.data (get_notification_key ticker alert_type) now⟩, ?_, ?_, ?_⟩
  · simp [NotificationTracker.mark_notified]
  · simp only [NotificationTracker.filter_alerts,
      filter_already_notified_eq_filter, List.filter_cons, List.filter_nil,
      keepAlert, lookup_dictSet_self]
    simp [hss]
  · simp only [NotificationTracker.filter_alerts,
      filter_already_notified_eq_filter, List.filter_cons, List.filter_nil,
      keepAlert, lookup_dictSet_self]
    simp [not_lt.mpr hpast]

/-- Witness for C4: with a 48 hour window, marking AAPL:buy at t = 0 and
filtering at t = 0 suppresses the alert, and filtering at t = 49 hours
returns it. -/
theorem mark_then_filter_round_trip_witness :
    ∃ tr' : NotificationTracker,
      NotificationTracker.mark_notified (fun _ => .ok) ⟨48, []⟩ "AAPL" "buy"
          0 = .ok tr' ∧
      tr'.filter_alerts [⟨"AAPL", "buy"⟩] 0 = [] ∧
      tr'.filter_alerts [⟨"AAPL", "buy"⟩] (49 * 3600)
        = [⟨"AAPL", "buy"⟩] :=
  mark_then_filter_round_trip ⟨48, []⟩ "AAPL" "buy" 0 (49 * 3600)
    (by norm_num) (by norm_num)

/-- C8: load_notified_data is a total function of the read outcome (no
branch propagates an error): a missing file and an empty or whitespace-only
file load as the empty state, an unreadable file loads as the empty state
with a warning, and content that the JSON parser rejects loads as the empty
state with a warning. -/
theorem load_notified_recovers_empty
    (parseJson : String → Option NotifiedData) (content msg : String) :
    load_notified_data parseJson .missing = ⟨[], false⟩ ∧
    load_notified_data parseJson (.readFailed msg) = ⟨[], true⟩ ∧
    (content.trim = "" →
      load_notified_data parseJson (.readOk content) = ⟨[], false⟩) ∧
    (content.trim ≠ "" → parseJson content.trim = none →
      load_notified_data parseJson (.readOk content) = ⟨[], true⟩) := by
  refine ⟨rfl, rfl, ?_, ?_⟩
  · intro h
    simp [load_notified_data, h]
  · intro h hp
    simp [load_notified_data, h, hp]

theorem checkThresholds_ticker (t : String) (th : ThresholdDict)
    (r : PriceRange) : ∀ a ∈ checkThresholds t th r, a.ticker = t := by
  intro a ha
  simp only [checkThresholds, List.mem_append] at ha
  rcases ha with h | h
  · cases hb : th.buy with
    | none => simp [hb] at h
    | some b =>
      by_cases hle : r.min_price ≤ b
      · simp only [hb, if_pos hle, List.mem_singleton] at h
        rw [h]
      · simp [hb, if_neg hle] at h
  · cases hs : th.sell with
    | none => simp [hs] at h
    | some s =>
      by_cases hge : r.max_price ≥ s
      · simp only [hs, ge_iff_le, if_pos hge, List.mem_singleton] at h
        rw [h]
      · simp [hs, if_neg hge] at h

theorem tickerAlerts_ticker (lookup : String → Except StockFailure PriceRange)
    (p : String × ThresholdDict) :
    ∀ a ∈ tickerAlerts lookup p, a.ticker = p.1 := by
  intro a ha
  unfold tickerAlerts at ha
  cases h : lookup p.1 with
  | error e => simp [h] at ha
  | ok r =>
    rw [h] at ha
    exact checkThresholds_ticker p.1 p.2 r a ha

theorem flatMap_filter_ticker_nil
    (lookup : String → Except StockFailure PriceRange)
    (reqs : List (String × ThresholdDict)) (t : String)
    (hout : t ∉ reqs.map Prod.fst) :
    (reqs.flatMap (tickerAlerts lookup)).filter (fun a => a.ticker == t)
      = [] := by
  rw [List.filter_eq_nil_iff]
  intro a ha
  rw [List.mem_flatMap] at ha
  obtain ⟨p, hp, hap⟩ := ha
  have h1 : a.ticker = p.1 := tickerAlerts_ticker lookup p a hap
  have h2 : p.1 ≠ t := by
    intro hpt
    exact hout (hpt ▸ List.mem_map_of_mem Prod.fst hp)
  simp [h1, h2]

theorem alerts_filter_ticker (lookup : String → Except StockFailure PriceRange)
    (reqs : List (String × ThresholdDict)) (t : String) (th : ThresholdDict)
    (r : PriceRange) (hmem : (t, th) ∈ reqs)
    (hnodup : (reqs.map Prod.fst).Nodup) (hlk : lookup t = .ok r) :
    (check_alerts lookup reqs).alerts.filter (fun a => a.ticker == t)
      = checkThresholds t th r := by
  rw [check_alerts_alerts_eq]
  induction reqs with
  | nil => simp at hmem
  | cons p rest ih =>
    rw [List.map_cons, List.nodup_cons] at hnodup
    rcases List.mem_cons.mp hmem with heq | hmem'
    · subst heq
      rw [List.flatMap_cons, List.filter_append]
      have hhead : (tickerAlerts lookup (t, th)).filter
          (fun a => a.ticker == t) = tickerAlerts lookup (t, th) := by
        rw [List.filter_eq_self]
        intro a ha
        simp [tickerAlerts_ticker lookup (t, th) a ha]
      have htail : (rest.flatMap (tickerAlerts lookup)).filter
          (fun a => a.ticker == t) = [] :=
        flatMap_filter_ticker_nil lookup rest t hnodup.1
      rw [hhead, htail, List.append_nil]
      simp [tickerAlerts, hlk]
    · have hp1 : p.1 ≠ t := by
        intro hpt
        exact hnodup.1 (hpt ▸ List.mem_map_of_mem Prod.fst hmem')
      rw [List.flatMap_cons, List.filter_append]
      have hhead : (tickerAlerts lookup p).filter
          (fun a => a.ticker == t) = [] := by
        rw [List.filter_eq_nil_iff]
        intro a ha
        simp [tickerAlerts_ticker lookup p a ha, hp1]
      rw [hhead, List.nil_append]
      exact ih hmem' hnodup.2

theorem countP_ok_add_errors_length
    (lookup : String → Except StockFailure PriceRange)
    (reqs : List (String × ThresholdDict)) :
    reqs.countP (lookupOk lookup)
      + (reqs.filterMap (tickerError lookup)).length = reqs.length := by
  induction reqs with
  | nil => simp
  | cons p rest ih =>
    cases h : lookup p.1 with
    | ok r =>
      simp [List.countP_cons, List.filterMap_cons, lookupOk, tickerError, h]
      omega
    | error e =>
      simp [List.countP_cons, List.filterMap_cons, lookupOk, tickerError, h]
      omega

/-- C6: the alerts of the response are exactly the per-ticker threshold
alerts of the successful lookups in request order, the errors are exactly
one entry per failing ticker in request order (so failure of one ticker never
blocks the others: the contribution of each pair depends only on its own lookup),
each ticker is accounted for exactly once (successes plus error entries equal
the number of input tickers), and every ticker either succeeds with no error
entry or fails with exactly one error entry carrying its own ticker. -/
theorem ticker_accounting_spec
    (lookup : String → Except StockFailure PriceRange)
    (reqs : List (String × ThresholdDict)) :
    (check_alerts lookup reqs).alerts = reqs.flatMap (tickerAlerts lookup) ∧
    (check_alerts lookup reqs).errors
      = reqs.filterMap (tickerError lookup) ∧
    reqs.countP (lookupOk lookup) + (check_alerts lookup reqs).errors.length
      = reqs.length ∧
    (∀ p ∈ reqs,
      (lookupOk lookup p = true ∧ tickerError lookup p = none) ∨
      (lookupOk lookup p = false ∧ tickerAlerts lookup p = [] ∧
        ∃ ed : ErrorDetail,
          tickerError lookup p = some ed ∧ ed.ticker = p.1)) := by
  refine ⟨check_alerts_alerts_eq .., check_alerts_errors_eq .., ?_, ?_⟩
  · rw [check_alerts_errors_eq]
    exact countP_ok_add_errors_length ..
  · intro p _
    cases h : lookup p.1 with
    | ok r => exact Or.inl ⟨by simp [lookupOk, h], by simp [tickerError, h]⟩
    | error e =>
      exact Or.inr ⟨by simp [lookupOk, h], by simp [tickerAlerts, h],
        ⟨⟨p.1, errorText e⟩, by simp [tickerError, h], rfl⟩⟩

/-- C3: service_degraded is true exactly when the batch is nonempty, no
ticker lookup succeeded, and the error count equals the ticker count; an
empty batch is never degraded, and a batch containing at least one
successful ticker (in particular a partial failure) is never degraded. -/
theorem service_degraded_spec
    (lookup : String → Except StockFailure PriceRange)
    (reqs : List (String × ThresholdDict)) :
    ((check_alerts lookup reqs).service_degraded = true ↔
      (0 < reqs.length ∧ reqs.countP (lookupOk lookup) = 0 ∧
        (check_alerts lookup reqs).errors.length = reqs.length)) ∧
    (reqs = [] → (check_alerts lookup reqs).service_degraded = false) ∧
    (∀ p ∈ reqs, lookupOk lookup p = true →
      (check_alerts lookup reqs).service_degraded = false) := by
  refine ⟨?_, ?_, ?_⟩
  · rw [check_alerts_degraded_eq, check_alerts_errors_eq]
    simp [and_assoc]
  · intro h
    subst h
    rfl
  · intro p hp hok
    rw [check_alerts_degraded_eq]
    have hpos : 0 < reqs.countP (lookupOk lookup) :=
      List.countP_pos_iff.mpr ⟨p, hp, hok⟩
    have hne : reqs.countP (lookupOk lookup) ≠ 0 := by omega
    simp [hne]

/-- C1: for a ticker of the batch whose lookup succeeds with range
(low, high, last), the buy alerts of the response attributed to that ticker
are exactly one Alert(ticker, buy, threshold = buy, reached = low,
current = last) when a buy threshold is set and low <= buy (tie included),
and none when the comparison fails or no buy threshold is set; symmetrically
the sell alerts attributed to it are exactly one Alert(ticker, sell,
threshold = sell, reached = high, current = last) when a sell threshold is
set and high >= sell, and none otherwise; both sides are judged
independently, so both may fire in the same cycle. -/
theorem check_alerts_threshold_emission
    (lookup : String → Except StockFailure PriceRange)
    (reqs : List (String × ThresholdDict)) (t : String)
    (th : ThresholdDict) (low high last : ℚ)
    (hmem : (t, th) ∈ reqs) (hnodup : (reqs.map Prod.fst).Nodup)
    (hlk : lookup t = .ok ⟨low, high, last⟩) :
    (∀ b, th.buy = some b → low ≤ b →
      alertsFor (check_alerts lookup reqs) t "buy"
        = [{ ticker := t, type := "buy", threshold := b, reached := low,
             current := last }]) ∧
    (∀ b, th.buy = some b → ¬ low ≤ b →
      alertsFor (check_alerts lookup reqs) t "buy" = []) ∧
    (th.buy = none → alertsFor (check_alerts lookup reqs) t "buy" = []) ∧
    (∀ s, th.sell = some s → high ≥ s →
      alertsFor (check_alerts lookup reqs) t "sell"
        = [{ ticker := t, type := "sell", threshold := s, reached := high,
             current := last }]) ∧
    (∀ s, th.sell = some s → ¬ high ≥ s →
      alertsFor (check_alerts lookup reqs) t "sell" = []) ∧
    (th.sell = none → alertsFor (check_alerts lookup reqs) t "sell" = []) := by
  have hAf : ∀ ty : String,
      alertsFor (check_alerts lookup reqs) t ty
        = (checkThresholds t th ⟨low, high, last⟩).filter
            (fun a => a.type == ty) := by
    intro ty
    unfold alertsFor
    have hsplit : (check_alerts lookup reqs).alerts.filter
        (fun a => a.ticker == t && a.type == ty)
        = ((check_alerts lookup reqs).alerts.filter
            (fun a => a.ticker == t)).filter (fun a => a.type == ty) := by
      rw [List.filter_filter]
      apply List.filter_congr
      intro a _
      rw [Bool.and_comm]
    rw [hsplit, alerts_filter_ticker lookup reqs t th ⟨low, high, last⟩
      hmem hnodup hlk]
  refine ⟨?_, ?_, ?_, ?_, ?_, ?_⟩
  · intro b hb hle
    rw [hAf]
    cases hs : th.sell with
    | none => simp [checkThresholds, hb, hs, hle]
    | some s =>
      by_cases hge : high ≥ s
      · simp [checkThresholds, hb, hs, hle, hge]
      · simp [checkThresholds, hb, hs, hle, hge]
  · intro b hb hle
    rw [hAf]
    cases hs : th.sell with
    | none => simp [checkThresholds, hb, hs, hle]
    | some s =>
      by_cases hge : high ≥ s
      · simp [checkThresholds, hb, hs, hle, hge]
      · simp [checkThresholds, hb, hs, hle, hge]
  · intro hb
    rw [hAf]
    cases hs : th.sell with
    | none => simp [checkThresholds, hb, hs]
    | some s =>
      by_cases hge : high ≥ s
      · simp [checkThresholds, hb, hs, hge]
      · simp [checkThresholds, hb, hs, hge]
  · intro s hs hge
    rw [hAf]
    cases hb : th.buy with
    | none => simp [checkThresholds, hb, hs, hge]
    | some b =>
      by_cases hle : low ≤ b
      · simp [checkThresholds, hb, hs, hle, hge]
      · simp [checkThresholds, hb, hs, hle, hge]
  · intro s hs hge
    rw [hAf]
    cases hb : th.buy with
    | none => simp [checkThresholds, hb, hs, hge]
    | some b =>
      by_cases hle : low ≤ b
      · simp [checkThresholds, hb, hs, hle, hge]
      · simp [checkThresholds, hb, hs, hle, hge]
  · intro hs
    rw [hAf]
    cases hb : th.buy with
    | none => simp [checkThresholds, hb, hs]
    | some b =>
      by_cases hle : low ≤ b
      · simp [checkThresholds, hb, hs, hle]
      · simp [checkThresholds, hb, hs, hle]

/-- Witness for C1: a one-ticker batch with thresholds buy 170 and sell 175
and a successful lookup (165, 180, 172) yields exactly one buy alert
(threshold 170, reached 165, current 172) and exactly one sell alert
(threshold 175, reached 180, current 172) for that ticker. -/
theorem check_alerts_threshold_emission_witness :
    alertsFor
        (check_alerts
          (fun s => if s = "AAPL" then .ok ⟨165, 180, 172⟩
            else .error (.invalidTicker "unknown"))
          [("AAPL", ⟨some 170, some 175⟩)]) "AAPL" "buy"
      = [{ ticker := "AAPL", type := "buy", threshold := 170,
           reached := 165, current := 172 }] ∧
    alertsFor
        (check_alerts
          (fun s => if s = "AAPL" then .ok ⟨165, 180, 172⟩
            else .error (.invalidTicker "unknown"))
          [("AAPL", ⟨some 170, some 175⟩)]) "AAPL" "sell"
      = [{ ticker := "AAPL", type := "sell", threshold := 175,
           reached := 180, current := 172 }] := by
  have h := check_alerts_threshold_emission
    (fun s => if s = "AAPL" then .ok ⟨165, 180, 172⟩
      else .error (.invalidTicker "unknown"))
    [("AAPL", ⟨some 170, some 175⟩)] "AAPL" ⟨some 170, some 175⟩
    165 180 172 (List.mem_singleton.mpr rfl) (by simp) (by simp)
  exact ⟨h.1 170 rfl (by norm_num), h.2.2.2.1 175 rfl (by norm_num)⟩

example : dictSet [("AAPL:buy", 5)] "AAPL:buy" 7 = [("AAPL:buy", 7)] := by
  decide

example : get_notification_key "AAPL" "buy" = "AAPL:buy" := by decide

example :
    filter_already_notified [⟨"AAPL", "buy"⟩] [("AAPL:buy", 0)] 48 10 = [] := by
  have h1 : List.lookup (get_notification_key "AAPL" "buy")
      ([("AAPL:buy", (0 : ℚ))]) = some 0 := rfl
  simp only [filter_already_notified, filterAlreadyNotifiedGo, h1]
  norm_num

example :
    filter_already_notified [⟨"AAPL", "buy"⟩] [("AAPL:buy", 0)] 48 (48 * 3600)
      = [⟨"AAPL", "buy"⟩] := by
  have h1 : List.lookup (get_notification_key "AAPL" "buy")
      ([("AAPL:buy", (0 : ℚ))]) = some 0 := rfl
  simp only [filter_already_notified, filterAlreadyNotifiedGo, h1]
  norm_num
